import Mathlib

/-!
Verification of the Espruino network-core excerpt, embedding
`src/libs/network/network.h` and `src/libs/math/jswrap_math.c`.

The math wrappers are embedded over an idealized IEEE-754 double type
`EDouble` (NaN, both infinities, signed zero, exact finite values as
rationals).  The functions under scrutiny (`jswrap_math_minmax`, the
small-integer fast path of `jswrap_math_pow`) perform only comparisons
and branches, which IEEE-754 evaluates exactly, so the embedding is
faithful on the code paths the theorems speak about; rounding arithmetic
(floating multiplication, exp/log) is abstracted as explicit function
parameters.

`network.h` only declares the driver contract (a vtable of function
pointers) and the connectivity/backend enums; `network.c` and the
concrete drivers are not part of the excerpt.  The enums are embedded
directly from the header; the behaviour of the contract operations is
modelled from the spec, as marked on each definition.
-/

/-- Idealized IEEE-754 double: NaN, the two infinities, negative zero,
and exact finite values as rationals (`finite 0` is positive zero).
Comparisons on doubles are exact, so this carrier is faithful for the
comparison-and-branch code embedded below. -/
inductive EDouble
  | nan
  | posInf
  | negInf
  | negZero
  | finite (q : ℚ)
deriving DecidableEq, Repr

/-- `isnan` from math.h: true exactly on NaN. -/
def EDouble.isnan : EDouble → Bool
  | .nan => true
  | _ => false

/-- Rational value of a zero or finite double (junk on NaN/infinities,
which the callers below never reach). -/
def EDouble.val : EDouble → ℚ
  | .negZero => 0
  | .finite q => q
  | _ => 0

/-- IEEE-754 `<` on doubles: false whenever either side is NaN,
infinities compare as extreme values, `-0.0 < 0.0` is false. -/
def EDouble.lt : EDouble → EDouble → Bool
  | .nan, _ => false
  | _, .nan => false
  | .posInf, _ => false
  | _, .posInf => true
  | .negInf, .negInf => false
  | .negInf, _ => true
  | _, .negInf => false
  | a, b => decide (a.val < b.val)

/-- IEEE-754 `==` between a double `y` and an `int` `n` (the C comparison
`yi == y`, after the usual arithmetic conversion of `yi` to double):
false on NaN and infinities, and `-0.0 == 0` holds. -/
def EDouble.eqInt : EDouble → Int → Bool
  | .nan, _ => false
  | .posInf, _ => false
  | .negInf, _ => false
  | .negZero, n => decide ((0 : ℚ) = (n : ℚ))
  | .finite q, n => decide (q = (n : ℚ))

/-- The C cast `(int)y`: truncation toward zero for finite values.  For
NaN and the infinities the cast is undefined behaviour in C; the result
0 here stands for an arbitrary value (the theorems below never rely on
those cases). -/
def EDouble.toCInt : EDouble → Int
  | .finite q => if 0 ≤ q then ⌊q⌋ else -⌊-q⌋
  | _ => 0

/-- Embedding of `jswrap_math_minmax` (jswrap_math.c:547-561): fold over
the argument list, starting from `-INFINITY` for max and `INFINITY` for
min, replacing the accumulator whenever
`(isMax && arg > v) || (!isMax && arg < v) || isnan(arg)`.
The interpreter iterator (`JsvObjectIterator`) is embedded as a Lean
list of the already-converted float arguments. -/
def jswrap_math_minmax (args : List EDouble) (isMax : Bool) : EDouble :=
  args.foldl
    (fun v arg =>
      if (isMax && EDouble.lt v arg) || (!isMax && EDouble.lt arg v) || arg.isnan
      then arg else v)
    (if isMax then EDouble.negInf else EDouble.posInf)

/-- The fast-path loop of `jswrap_math_pow`
(`p = x; while (yi>1) { p *= x; yi--; }`): `n` further multiplications
of the accumulator by `x`, with floating multiplication abstracted as
`mulD` since it rounds. -/
def powFastLoop (mulD : EDouble → EDouble → EDouble) (x : EDouble) : Nat → EDouble
  | 0 => x
  | n + 1 => mulD (powFastLoop mulD x n) x

/-- Embedding of `jswrap_math_pow` (jswrap_math.c:300-334).  The
small-integer fast path (`yi = (int)y; if (yi>=0 && yi<10 && yi==y)`) is
embedded exactly; `yi == 0` returns 1.0 before touching `x` at all.  The
general path (lines 317-332, built from C `exp`/`log` which round) is
abstracted as the parameter `slowPath`, invoked exactly when the fast
path does not apply; floating multiplication inside the fast-path loop
is likewise the parameter `mulD`. -/
def jswrap_math_pow (mulD slowPath : EDouble → EDouble → EDouble)
    (x y : EDouble) : EDouble :=
  let yi : Int := y.toCInt
  if 0 ≤ yi ∧ yi < 10 ∧ EDouble.eqInt y yi then
    if yi = 0 then .finite 1
    else powFastLoop mulD x (yi.toNat - 1)
  else slowPath x y

-- Helper lemmas for `jswrap_math_minmax`.

/-- One fold step on a NaN accumulator: a non-NaN argument compares
false against NaN on both sides, and a NaN argument rewrites the
accumulator to NaN again. -/
theorem minmax_step_nan (isMax : Bool) (arg : EDouble) :
    (if (isMax && EDouble.lt .nan arg) || (!isMax && EDouble.lt arg .nan) || arg.isnan
     then arg else EDouble.nan) = .nan := by
  cases arg <;> cases isMax <;> rfl

/-- One fold step at a NaN argument sets the accumulator to NaN. -/
theorem minmax_step_to_nan (isMax : Bool) (v : EDouble) :
    (if (isMax && EDouble.lt v .nan) || (!isMax && EDouble.lt .nan v) || EDouble.isnan .nan
     then EDouble.nan else v) = .nan := by
  cases v <;> cases isMax <;> rfl

/-- Once the accumulator is NaN it stays NaN for the rest of the fold. -/
theorem minmax_fold_nan_absorbing (args : List EDouble) (isMax : Bool) :
    args.foldl
      (fun v arg =>
        if (isMax && EDouble.lt v arg) || (!isMax && EDouble.lt arg v) || arg.isnan
        then arg else v)
      .nan = .nan := by
  induction args with
  | nil => rfl
  | cons a l ih =>
      simp only [List.foldl_cons]
      rw [minmax_step_nan]
      exact ih

/-- If NaN occurs among the remaining arguments, the fold ends in NaN
whatever the current accumulator is. -/
theorem minmax_fold_nan_mem (args : List EDouble) (isMax : Bool) :
    ∀ v : EDouble, EDouble.nan ∈ args →
    args.foldl
      (fun v arg =>
        if (isMax && EDouble.lt v arg) || (!isMax && EDouble.lt arg v) || arg.isnan
        then arg else v)
      v = .nan := by
  induction args with
  | nil => intro v h; cases h
  | cons a l ih =>
      intro v h
      rcases List.mem_cons.mp h with ha | hl
      · rw [← ha]
        simp only [List.foldl_cons]
        rw [minmax_step_to_nan]
        exact minmax_fold_nan_absorbing l isMax
      · simp only [List.foldl_cons]
        exact ih _ hl

/-- C9: `jswrap_math_minmax` on the empty list returns `+INFINITY` for
min (`isMax = false`) and `-INFINITY` for max (`isMax = true`); and any
argument list containing a NaN yields NaN, regardless of the other
arguments and of their order. -/
theorem C9_minmax_empty_and_nan (args : List EDouble) (isMax : Bool) :
    jswrap_math_minmax [] false = .posInf ∧
    jswrap_math_minmax [] true = .negInf ∧
    ((∃ a ∈ args, a.isnan) → jswrap_math_minmax args isMax = .nan) := by
  refine ⟨rfl, rfl, fun ⟨a, ha, hnan⟩ => ?_⟩
  have hm : EDouble.nan ∈ args := by
    cases a with
    | nan => exact ha
    | posInf => simp [EDouble.isnan] at hnan
    | negInf => simp [EDouble.isnan] at hnan
    | negZero => simp [EDouble.isnan] at hnan
    | finite q => simp [EDouble.isnan] at hnan
  exact minmax_fold_nan_mem args isMax _ hm

/-- Witness for C9: `Math.min(1, NaN)` evaluates to NaN via the theorem. -/
theorem C9_minmax_witness :
    jswrap_math_minmax [.finite 1, .nan] false = .nan :=
  (C9_minmax_empty_and_nan [.finite 1, .nan] false).2.2
    ⟨.nan, by decide, by decide⟩

/-- C10: `jswrap_math_pow` returns exactly 1.0 whenever the exponent is
zero — including negative zero — for every base `x` (0, infinities and
NaN included), and it does so through the small-integer fast path: the
result does not depend on the abstracted multiplication or exp/log slow
path, which are therefore never consulted. -/
theorem C10_pow_zero_exponent (mulD slowPath : EDouble → EDouble → EDouble)
    (x : EDouble) :
    jswrap_math_pow mulD slowPath x (.finite 0) = .finite 1 ∧
    jswrap_math_pow mulD slowPath x .negZero = .finite 1 := by
  constructor <;> rfl

/-- `JsNetworkState` (network.h:24-28): the process-wide tri-state
connectivity level — `NETWORKSTATE_OFFLINE`, `NETWORKSTATE_CONNECTED`
(connected but not online, no DHCP), `NETWORKSTATE_ONLINE` (DHCP or
manual address). -/
inductive JsNetworkState
  | NETWORKSTATE_OFFLINE
  | NETWORKSTATE_CONNECTED
  | NETWORKSTATE_ONLINE
deriving DecidableEq, Repr, Fintype

/-- `JsNetworkType` (network.h:33-38): backend selector, one of the
standard linux socket API, TI CC3000, WIZnet W5500. -/
inductive JsNetworkType
  | JSNETWORKTYPE_SOCKET
  | JSNETWORKTYPE_CC3000
  | JSNETWORKTYPE_W5500
deriving DecidableEq, Repr, Fintype

/-- `JsNetworkData` (network.h:40-45): the persisted per-handle data;
in the excerpt it carries the backend type (the device-access fields are
commented out in the header). -/
structure JsNetworkData where
  type : JsNetworkType
deriving DecidableEq, Repr

/-- Driver events of the §4.4 connectivity state machine: the two
progress events reported by `idle` (link established, address acquired)
and the two fault granularities reported by `checkError` (link lost,
address lost). -/
inductive DriverEvent
  | linkEstablished
  | addressAcquired
  | linkLost
  | addressLost
deriving DecidableEq, Repr, Fintype

/-- The two fault events. -/
def DriverEvent.isFault : DriverEvent → Bool
  | .linkLost => true
  | .addressLost => true
  | _ => false

/-- Modelled from the spec: the transition table of §4.4 for
`networkState` — `network.c` and the drivers that mutate the global are
not in the excerpt, only the `JsNetworkState` enum is.  Offline leaves
on link establishment, Connected advances to Online on address
acquisition, link loss demotes any state to Offline, address loss
demotes Online to Connected; all other events leave the state fixed. -/
def stepState : JsNetworkState → DriverEvent → JsNetworkState
  | _, .linkLost => .NETWORKSTATE_OFFLINE
  | .NETWORKSTATE_OFFLINE, .linkEstablished => .NETWORKSTATE_CONNECTED
  | .NETWORKSTATE_CONNECTED, .addressAcquired => .NETWORKSTATE_ONLINE
  | .NETWORKSTATE_ONLINE, .addressLost => .NETWORKSTATE_CONNECTED
  | s, _ => s

/-- Height of a state on the Offline < Connected < Online ladder. -/
def stateRank : JsNetworkState → Nat
  | .NETWORKSTATE_OFFLINE => 0
  | .NETWORKSTATE_CONNECTED => 1
  | .NETWORKSTATE_ONLINE => 2

/-- The sequence of states visited while consuming a list of driver
events, starting state included. -/
def stateTrace (s : JsNetworkState) (es : List DriverEvent) : List JsNetworkState :=
  es.scanl stepState s

/-- A trace that starts below Online and reaches Online must visit
Connected: the only transition into Online leaves from Connected. -/
theorem trace_online_through_connected (es : List DriverEvent) :
    ∀ s : JsNetworkState, s ≠ .NETWORKSTATE_ONLINE →
    .NETWORKSTATE_ONLINE ∈ stateTrace s es →
    .NETWORKSTATE_CONNECTED ∈ stateTrace s es := by
  induction es with
  | nil =>
      intro s hs h
      rw [stateTrace, List.scanl_nil, List.mem_singleton] at h
      exact absurd h.symm hs
  | cons e l ih =>
      intro s hs h
      rw [stateTrace, List.scanl_cons] at h ⊢
      rcases List.mem_cons.mp h with h1 | h2
      · exact absurd h1.symm hs
      · by_cases hnext : stepState s e = .NETWORKSTATE_ONLINE
        · have hsc : s = .NETWORKSTATE_CONNECTED := by
            revert hs hnext; cases s <;> cases e <;> decide
          exact List.mem_cons.mpr (Or.inl hsc.symm)
        · exact List.mem_cons.mpr (Or.inr (ih (stepState s e) hnext h2))

/-- C1: the connectivity state is exactly the three-valued enumeration
`JsNetworkState`; a single driver event never jumps Offline→Online (it
climbs at most one rung of the Offline–Connected–Online ladder), a fault
event never moves the state forward, and along any event sequence a
trace from Offline that reaches Online passes through Connected. -/
theorem C1_connectivity_transitions (s : JsNetworkState) (e : DriverEvent)
    (es : List DriverEvent) :
    Fintype.card JsNetworkState = 3 ∧
    stepState .NETWORKSTATE_OFFLINE e ≠ .NETWORKSTATE_ONLINE ∧
    stateRank (stepState s e) ≤ stateRank s + 1 ∧
    (e.isFault = true → stateRank (stepState s e) ≤ stateRank s) ∧
    (.NETWORKSTATE_ONLINE ∈ stateTrace .NETWORKSTATE_OFFLINE es →
      .NETWORKSTATE_CONNECTED ∈ stateTrace .NETWORKSTATE_OFFLINE es) := by
  refine ⟨by decide, ?_, ?_, ?_,
    trace_online_through_connected es _ (by decide)⟩
  · cases e <;> decide
  · cases s <;> cases e <;> decide
  · cases s <;> cases e <;> decide

/-- Witness for C1: the link-lost fault demotes Online, and the
two-stage trace link-established/address-acquired from Offline visits
Connected. -/
theorem C1_connectivity_witness :
    stateRank (stepState .NETWORKSTATE_ONLINE .linkLost) ≤
      stateRank .NETWORKSTATE_ONLINE ∧
    .NETWORKSTATE_CONNECTED ∈
      stateTrace .NETWORKSTATE_OFFLINE [.linkEstablished, .addressAcquired] :=
  ⟨(C1_connectivity_transitions .NETWORKSTATE_ONLINE .linkLost []).2.2.2.1
      (by decide),
   (C1_connectivity_transitions .NETWORKSTATE_OFFLINE .linkLost
      [.linkEstablished, .addressAcquired]).2.2.2.2 (by decide)⟩

/-- Role of a socket: listening server or connecting client (§3). -/
inductive SocketRole
  | server
  | client
deriving DecidableEq, Repr

/-- A socket in the backend's table: small-integer descriptor, role,
peer host (0 for a listening server socket) and port. -/
structure ModelSocket where
  id : Nat
  role : SocketRole
  host : Nat
  port : Nat
deriving DecidableEq, Repr

/-- Modelled from the spec: the backend-side state behind the driver
contract of network.h — the concrete drivers are not in the excerpt.
`nextId` is the next fresh descriptor, `maxSockets` the backend's
resource limit (creation fails when the table is full), `sockets` the
table of live sockets, and `pending` the incoming connections queued on
server sockets as (server descriptor, peer host) pairs. -/
structure BackendState where
  nextId : Nat
  maxSockets : Nat
  sockets : List ModelSocket
  pending : List (Nat × Nat)
deriving DecidableEq, Repr

/-- Modelled from the spec: `createsocket` (network.h:57-58, §4.1).
`host == 0` creates a listening server socket on `port`; `host != 0`
creates a client socket that begins connecting to host:port.  Success
returns a fresh non-negative descriptor; failure (table full) returns a
negative result and leaves the state untouched. -/
def createsocket (st : BackendState) (host port : Nat) : Int × BackendState :=
  if st.sockets.length < st.maxSockets then
    ((st.nextId : Int),
     { st with
        nextId := st.nextId + 1,
        sockets :=
          { id := st.nextId,
            role := if host = 0 then .server else .client,
            host := host, port := port } :: st.sockets })
  else (-1, st)

/-- Modelled from the spec: `closesocket` (network.h:59-60, §4.1).
Destroys the given socket; closing an already-closed or unknown
descriptor is a no-op, not an error. -/
def closesocket (st : BackendState) (sckt : Int) : BackendState :=
  { st with
      sockets := st.sockets.filter (fun s => decide ((s.id : Int) ≠ sckt)) }

/-- Modelled from the spec: `accept` (network.h:61-62, §4.1).
Non-blocking: if the given server socket has a pending connection,
allocate and return a new client descriptor, consuming the pending
entry; otherwise return a negative "none" result and leave everything
untouched. -/
def accept (st : BackendState) (sckt : Int) : Int × BackendState :=
  match st.pending.find? (fun p => decide ((p.1 : Int) = sckt)) with
  | none => (-1, st)
  | some p =>
      ((st.nextId : Int),
       { st with
          nextId := st.nextId + 1,
          sockets :=
            { id := st.nextId, role := .client, host := p.2, port := 0 } ::
              st.sockets,
          pending :=
            st.pending.eraseP (fun q => decide ((q.1 : Int) = sckt)) })

/-- Test-double injection of §8: a simulated incoming connection on
server socket `srv` from peer `peer`. -/
def injectConnection (st : BackendState) (srv peer : Nat) : BackendState :=
  { st with pending := (srv, peer) :: st.pending }

/-- Filtering twice with the same predicate equals filtering once. -/
theorem filter_self_idem {α : Type} (p : α → Bool) (l : List α) :
    (l.filter p).filter p = l.filter p := by
  induction l with
  | nil => rfl
  | cons a l ih =>
      by_cases h : p a <;> simp [List.filter_cons, h, ih]

/-- C2: `createsocket` with `host = 0` creates a listening server socket
on the port, with `host ≠ 0` a client socket connecting to host:port —
the head of the new table records exactly that — and a successful call
returns the non-negative descriptor of that socket, while failure
returns a negative result and changes nothing. -/
theorem C2_createsocket_contract (st : BackendState) (host port : Nat) :
    (st.sockets.length < st.maxSockets →
      0 ≤ (createsocket st host port).1 ∧
      (createsocket st host port).1 = (st.nextId : Int) ∧
      (createsocket st host port).2.sockets =
        { id := st.nextId,
          role := if host = 0 then SocketRole.server else SocketRole.client,
          host := host, port := port } :: st.sockets) ∧
    (¬ st.sockets.length < st.maxSockets →
      (createsocket st host port).1 < 0 ∧
      (createsocket st host port).2 = st) := by
  by_cases h : st.sockets.length < st.maxSockets <;>
    simp [createsocket, h]

/-- Witness for C2: on an empty four-slot backend, a server create on
port 8080 and a client create toward host 7 both succeed with
descriptor 0, recording the requested role. -/
theorem C2_createsocket_witness :
    (createsocket ⟨0, 4, [], []⟩ 0 8080).2.sockets =
      [{ id := 0, role := SocketRole.server, host := 0, port := 8080 }] ∧
    (createsocket ⟨0, 4, [], []⟩ 7 80).2.sockets =
      [{ id := 0, role := SocketRole.client, host := 7, port := 80 }] :=
  ⟨((C2_createsocket_contract ⟨0, 4, [], []⟩ 0 8080).1 (by decide)).2.2,
   ((C2_createsocket_contract ⟨0, 4, [], []⟩ 7 80).1 (by decide)).2.2⟩

/-- C7: `closesocket` is idempotent — closing a descriptor twice equals
closing it once — and closing a descriptor absent from the socket table
(already closed or never issued) is a no-op on the whole state. -/
theorem C7_closesocket_idempotent (st : BackendState) (sckt : Int) :
    closesocket (closesocket st sckt) sckt = closesocket st sckt ∧
    ((∀ s ∈ st.sockets, (s.id : Int) ≠ sckt) → closesocket st sckt = st) := by
  constructor
  · simp [closesocket, filter_self_idem]
  · intro h
    cases st with
    | mk nextId maxSockets sockets pending =>
        simp only [closesocket, BackendState.mk.injEq, true_and]
        exact ⟨List.filter_eq_self.mpr
          (fun s hs => decide_eq_true (h s hs)), trivial⟩

/-- Witness for C7: closing unknown descriptor 5 on a table holding only
descriptor 0 changes nothing. -/
theorem C7_closesocket_witness :
    closesocket ⟨1, 4, [⟨0, SocketRole.server, 0, 80⟩], []⟩ 5 =
      ⟨1, 4, [⟨0, SocketRole.server, 0, 80⟩], []⟩ :=
  (C7_closesocket_idempotent ⟨1, 4, [⟨0, SocketRole.server, 0, 80⟩], []⟩ 5).2
    (by decide)

/-- C6: `accept` on a server socket with no pending connection returns
the negative "none" result and leaves the whole state — the server
socket included — untouched; when a pending connection exists it returns
a new non-negative client descriptor; and after injecting a simulated
incoming connection on a previously idle server, `accept` returns a new
descriptor. -/
theorem C6_accept_contract (st : BackendState) (sckt : Int) (srv peer : Nat) :
    ((∀ p ∈ st.pending, (p.1 : Int) ≠ sckt) →
      (accept st sckt).1 = -1 ∧ (accept st sckt).2 = st) ∧
    ((∃ p ∈ st.pending, (p.1 : Int) = sckt) → 0 ≤ (accept st sckt).1) ∧
    0 ≤ (accept (injectConnection st srv peer) (srv : Int)).1 := by
  have hpos : ∀ (st' : BackendState) (k : Int),
      (∃ p ∈ st'.pending, (p.1 : Int) = k) → 0 ≤ (accept st' k).1 := by
    rintro st' k ⟨p, hp, he⟩
    have hsome :
        (st'.pending.find? (fun q => decide ((q.1 : Int) = k))).isSome := by
      rw [List.find?_isSome]
      exact ⟨p, hp, decide_eq_true he⟩
    obtain ⟨q, hq⟩ := Option.isSome_iff_exists.mp hsome
    simp [accept, hq]
  refine ⟨fun h => ?_, hpos st sckt,
    hpos _ _ ⟨(srv, peer), List.mem_cons_self _ _, rfl⟩⟩
  have hnone :
      st.pending.find? (fun p => decide ((p.1 : Int) = sckt)) = none :=
    List.find?_eq_none.mpr (fun a ha => by simpa using h a ha)
  simp [accept, hnone]

/-- Witness for C6: with no pending connection, `accept` on server 0
returns -1 and leaves the state intact; after injecting a connection
from peer 9, it returns a non-negative descriptor. -/
theorem C6_accept_witness :
    (accept ⟨1, 4, [⟨0, SocketRole.server, 0, 8080⟩], []⟩ 0).1 = -1 ∧
    0 ≤ (accept
          (injectConnection ⟨1, 4, [⟨0, SocketRole.server, 0, 8080⟩], []⟩ 0 9)
          ((0 : Nat) : Int)).1 :=
  ⟨((C6_accept_contract ⟨1, 4, [⟨0, SocketRole.server, 0, 8080⟩], []⟩ 0 0 9).1
      (by decide)).1,
   (C6_accept_contract ⟨1, 4, [⟨0, SocketRole.server, 0, 8080⟩], []⟩ 0 0 9).2.2⟩

/-- Modelled from the spec: the per-socket I/O state behind
`recv`/`send` (network.h:65-68) — bytes currently waiting to be read,
room the backend currently has for outgoing bytes, and whether the
socket has become unusable. -/
structure IOSocket where
  id : Nat
  rxData : List Nat
  txRoom : Nat
  failed : Bool
deriving DecidableEq, Repr

/-- Modelled from the spec: `recv` (network.h:65-66, §4.1): the number
of bytes read on progress, 0 when no data is currently available (not
end-of-stream), -1 when the socket is no longer usable. -/
def recv (s : IOSocket) (maxLen : Nat) : Int × IOSocket :=
  if s.failed then (-1, s)
  else
    let n := min maxLen s.rxData.length
    if n = 0 then (0, s)
    else ((n : Int), { s with rxData := s.rxData.drop n })

/-- Modelled from the spec: `send` (network.h:67-68, §4.1): the number
of bytes accepted on progress, 0 when the backend temporarily cannot
accept more data (retry later), -1 when the socket must be closed. -/
def send (s : IOSocket) (len : Nat) : Int × IOSocket :=
  if s.failed then (-1, s)
  else
    let n := min len s.txRoom
    if n = 0 then (0, s)
    else ((n : Int), { s with txRoom := s.txRoom - n })

/-- The Socket Lifecycle Manager's reading of a single-attempt
`recv`/`send` result (§4.3): a positive byte count is progress, zero is
"retry on a later idle tick", negative is a transport error after which
the caller must close the socket. -/
inductive ManagedOutcome
  | progress (n : Nat)
  | retryLater
  | mustClose
deriving DecidableEq, Repr

/-- Modelled from the spec: how the manager surfaces a backend result to
the caller — it neither retries nor remaps, so the three cases map
one-to-one onto the sign of the result. -/
def classify (r : Int) : ManagedOutcome :=
  if 0 < r then .progress r.toNat
  else if r = 0 then .retryLater
  else .mustClose

/-- `classify` reports retry exactly on a zero result. -/
theorem classify_retryLater (k : Int) : classify k = .retryLater ↔ k = 0 := by
  unfold classify
  split_ifs with h1 h2
  · simp; omega
  · simp [h2]
  · simp; omega

/-- `classify` reports a must-close error exactly on a negative result. -/
theorem classify_mustClose (k : Int) : classify k = .mustClose ↔ k < 0 := by
  unfold classify
  split_ifs with h1 h2
  · simp; omega
  · simp; omega
  · simp; omega

/-- `classify` reports progress exactly on a positive result. -/
theorem classify_progress (k : Int) :
    classify k = .progress k.toNat ↔ 0 < k := by
  unfold classify
  split_ifs with h1 h2
  · simp [h1]
  · simp; omega
  · simp; omega

/-- C3: a single `recv` or `send` returns one of three mutually
distinguishable results — -1 exactly when the socket is unusable, 0
exactly when no data is available / no data can be accepted right now,
and a positive byte count exactly on progress — and the manager's
classification maps zero to retry and negatives to close, never mixing
the two. -/
theorem C3_recv_send_trichotomy (s : IOSocket) (maxLen len : Nat) (r : Int) :
    (s.failed = true → (recv s maxLen).1 = -1 ∧ (send s len).1 = -1) ∧
    ((recv s maxLen).1 = 0 ↔
      s.failed = false ∧ min maxLen s.rxData.length = 0) ∧
    (0 < (recv s maxLen).1 ↔
      s.failed = false ∧ 0 < min maxLen s.rxData.length) ∧
    ((send s len).1 = 0 ↔ s.failed = false ∧ min len s.txRoom = 0) ∧
    (0 < (send s len).1 ↔ s.failed = false ∧ 0 < min len s.txRoom) ∧
    (classify r = .retryLater ↔ r = 0) ∧
    (classify r = .mustClose ↔ r < 0) ∧
    (classify r = .progress r.toNat ↔ 0 < r) := by
  refine ⟨fun hf => ?_, ?_, ?_, ?_, ?_,
    classify_retryLater r, classify_mustClose r, classify_progress r⟩
  · simp [recv, send, hf]
  · by_cases hf : s.failed <;>
      by_cases hn : min maxLen s.rxData.length = 0 <;>
      simp [recv, hf, hn] <;> omega
  · by_cases hf : s.failed <;>
      by_cases hn : min maxLen s.rxData.length = 0 <;>
      simp [recv, hf, hn]
  · by_cases hf : s.failed <;>
      by_cases hn : min len s.txRoom = 0 <;>
      simp [send, hf, hn] <;> omega
  · by_cases hf : s.failed <;>
      by_cases hn : min len s.txRoom = 0 <;>
      simp [send, hf, hn]

/-- Witness for C3: a failed socket yields -1, an empty healthy socket
yields 0, and the classification keeps 0 as retry and -1 as close. -/
theorem C3_recv_send_witness :
    (recv ⟨0, [7], 3, true⟩ 4).1 = -1 ∧
    (recv ⟨0, [], 3, false⟩ 4).1 = 0 ∧
    classify 0 = ManagedOutcome.retryLater ∧
    classify (-1) = ManagedOutcome.mustClose :=
  ⟨((C3_recv_send_trichotomy ⟨0, [7], 3, true⟩ 4 0 0).1 rfl).1,
   (C3_recv_send_trichotomy ⟨0, [], 3, false⟩ 4 0 0).2.1.mpr ⟨rfl, rfl⟩,
   (C3_recv_send_trichotomy ⟨0, [], 3, false⟩ 4 0 0).2.2.2.2.2.1.mpr rfl,
   (C3_recv_send_trichotomy ⟨0, [], 3, false⟩ 4 0 (-1)).2.2.2.2.2.2.1.mpr
      (by decide)⟩

/-- Modelled from the spec: `gethostbyname` / `networkGetHostByName`
(network.h:63-64 and 80-81, §4.1) — backends that resolve
asynchronously poll internally on idle ticks; `poll t` is the backend's
answer at tick `t`.  `resolvePoll` consumes at most `fuel` ticks
starting at `tick`, failing once the budget is exhausted rather than
blocking. -/
def resolvePoll (poll : Nat → Option Nat) : Nat → Nat → Except Unit Nat
  | 0, _ => .error ()
  | fuel + 1, tick =>
      match poll tick with
      | some addr => .ok addr
      | none => resolvePoll poll fuel (tick + 1)

/-- Modelled from the spec: the caller-facing hostname resolution,
synchronous from the caller's point of view and bounded by `bound` idle
ticks. -/
def resolveHostname (poll : Nat → Option Nat) (bound : Nat) :
    Except Unit Nat :=
  resolvePoll poll bound 0

/-- If the backend never answers inside the window, polling fails. -/
theorem resolvePoll_fail (poll : Nat → Option Nat) :
    ∀ fuel tick : Nat, (∀ t, tick ≤ t → t < tick + fuel → poll t = none) →
    resolvePoll poll fuel tick = .error () := by
  intro fuel
  induction fuel with
  | zero => intro tick _; rfl
  | succ n ih =>
      intro tick h
      have h0 : poll tick = none := h tick le_rfl (by omega)
      simp only [resolvePoll, h0]
      exact ih (tick + 1) (fun t ht1 ht2 => h t (by omega) (by omega))

/-- If the backend first answers `a` at tick `k` inside the window,
polling returns `a`. -/
theorem resolvePoll_ok (poll : Nat → Option Nat) (a : Nat) :
    ∀ fuel tick k : Nat, tick ≤ k → k < tick + fuel →
    poll k = some a → (∀ t, tick ≤ t → t < k → poll t = none) →
    resolvePoll poll fuel tick = .ok a := by
  intro fuel
  induction fuel with
  | zero => intro tick k h1 h2 _ _; exact absurd h2 (by omega)
  | succ n ih =>
      intro tick k h1 h2 hk hnone
      rcases Nat.eq_or_lt_of_le h1 with he | hlt
      · simp only [resolvePoll, he, hk]
      · simp only [resolvePoll, hnone tick le_rfl hlt]
        exact ih (tick + 1) k hlt (by omega) hk
          (fun t ht1 ht2 => hnone t (by omega) ht2)

/-- C4: hostname resolution always yields either an address or an
error, the two distinguishable by the caller; a backend that cannot
resolve within the bounded window of idle ticks fails instead of
blocking, and one that answers inside the window succeeds with that
address. -/
theorem C4_resolve_bounded (poll : Nat → Option Nat) (bound k a : Nat) :
    (resolveHostname poll bound = .error () ∨
      ∃ b, resolveHostname poll bound = .ok b) ∧
    ((∀ t, t < bound → poll t = none) →
      resolveHostname poll bound = .error ()) ∧
    (k < bound → poll k = some a → (∀ t, t < k → poll t = none) →
      resolveHostname poll bound = .ok a) := by
  refine ⟨?_, fun h => ?_, fun h1 h2 h3 => ?_⟩
  · cases hr : resolveHostname poll bound with
    | error e => cases e; exact Or.inl rfl
    | ok b => exact Or.inr ⟨b, rfl⟩
  · exact resolvePoll_fail poll bound 0 (fun t _ ht2 => h t (by omega))
  · exact resolvePoll_ok poll a bound 0 k (Nat.zero_le k) (by omega) h2
      (fun t _ ht2 => h3 t ht2)

/-- Witness for C4: a backend answering 42 at tick 1 resolves inside a
three-tick window; a backend that never answers fails there. -/
theorem C4_resolve_witness :
    resolveHostname (fun t => if t = 1 then some 42 else none) 3 = .ok 42 ∧
    resolveHostname (fun _ => none) 3 = .error () :=
  ⟨(C4_resolve_bounded (fun t => if t = 1 then some 42 else none) 3 1 42).2.2
      (by omega) (by decide)
      (fun t ht => by
        have h0 : t = 0 := by omega
        subst h0; rfl),
   (C4_resolve_bounded (fun _ => none) 3 0 0).2.1 (fun t _ => rfl)⟩

/-- Policy and transport failures of §7 that the lifecycle manager can
return without touching hardware, plus the generic transport failure. -/
inductive NetError
  | NotConfigured
  | NotOnline
  | TransportError
deriving DecidableEq, Repr

/-- Modelled from the spec: the process-wide subsystem state the Socket
Lifecycle Manager sees — whether a handle is bound (whether
`networkGetFromVar` would succeed), the global `networkState`, the bound
backend, and a counter of driver/hardware invocations made so far (a
test-double call counter, §8). -/
structure NetSubsystem where
  bound : Bool
  networkState : JsNetworkState
  backend : BackendState
  driverCalls : Nat
deriving DecidableEq, Repr

/-- Modelled from the spec: `networkGetFromVarIfOnline` (network.h:74-75)
— the handle is handed out only when one is bound and the global state
is Online; otherwise the caller is warned and the operation rejected. -/
def networkGetFromVarIfOnline (st : NetSubsystem) : Bool :=
  st.bound && decide (st.networkState = .NETWORKSTATE_ONLINE)

/-- Modelled from the spec: a routability-requiring client-socket
creation (§4.3): preflight (NotConfigured when no handle is bound), then
the Online gate (NotOnline below Online), and only then the driver
call, which bumps the driver-invocation counter. -/
def managedClientCreate (st : NetSubsystem) (host port : Nat) :
    Except NetError Int × NetSubsystem :=
  if !st.bound then (.error .NotConfigured, st)
  else if st.networkState ≠ .NETWORKSTATE_ONLINE then (.error .NotOnline, st)
  else
    let r := createsocket st.backend host port
    ((if 0 ≤ r.1 then .ok r.1 else .error .TransportError),
     { st with backend := r.2, driverCalls := st.driverCalls + 1 })

/-- Modelled from the spec: a routability-requiring hostname resolution
(§4.3), gated identically to client-socket creation. -/
def managedResolve (st : NetSubsystem) (poll : Nat → Option Nat)
    (fuel : Nat) : Except NetError Nat × NetSubsystem :=
  if !st.bound then (.error .NotConfigured, st)
  else if st.networkState ≠ .NETWORKSTATE_ONLINE then (.error .NotOnline, st)
  else
    (match resolveHostname poll fuel with
      | .ok a => .ok a
      | .error _ => .error .TransportError,
     { st with driverCalls := st.driverCalls + 1 })

/-- C5: with a handle bound but the connectivity state below Online,
both routability-requiring operations are rejected with the distinct
NotOnline failure, the returned state is exactly the input state — so
no driver/hardware call was made (the call counter is unchanged) and a
later retry starts from the same state — and the if-online handle
lookup reports false. -/
theorem C5_online_gate (st : NetSubsystem) (host port fuel : Nat)
    (poll : Nat → Option Nat) :
    st.bound = true → st.networkState ≠ .NETWORKSTATE_ONLINE →
    managedClientCreate st host port = (.error .NotOnline, st) ∧
    managedResolve st poll fuel = (.error .NotOnline, st) ∧
    networkGetFromVarIfOnline st = false := by
  intro hb hs
  refine ⟨?_, ?_, ?_⟩ <;>
    simp [managedClientCreate, managedResolve, networkGetFromVarIfOnline,
      hb, hs]

/-- Witness for C5: in the Connected (not yet Online) state, a client
create toward host 7 is rejected with NotOnline and the state — call
counter included — is untouched. -/
theorem C5_online_gate_witness :
    managedClientCreate
        ⟨true, .NETWORKSTATE_CONNECTED, ⟨0, 4, [], []⟩, 0⟩ 7 80 =
      (.error .NotOnline,
        ⟨true, .NETWORKSTATE_CONNECTED, ⟨0, 4, [], []⟩, 0⟩) :=
  (C5_online_gate ⟨true, .NETWORKSTATE_CONNECTED, ⟨0, 4, [], []⟩, 0⟩ 7 80 0
      (fun _ => none) rfl (by decide)).1

/-- Modelled from the spec: the process-wide networking singleton of
§3/§5 — at most one bound handle at any moment (the `Option` makes "at
most one" structural: the whole field is replaced, never extended) and
the table of outstanding descriptors, each tagged with the backend kind
it was created under. -/
structure GlobalNet where
  boundHandle : Option JsNetworkData
  sockets : List (Nat × JsNetworkType)
deriving DecidableEq, Repr

/-- The operations that mutate the singleton: binding a backend
(`networkSet`-style), unbinding (`networkFree`), and creating or
closing a socket through the bound handle. -/
inductive NetOp
  | bindBackend (t : JsNetworkType)
  | unbind
  | create (d : Nat)
  | close (d : Nat)
deriving DecidableEq, Repr

/-- Modelled from the spec (§4.2, §3): rebinding the same backend is
idempotent and keeps the sockets; switching backends or unbinding
invalidates every outstanding descriptor; creation requires a bound
handle and tags the new descriptor with that handle's kind. -/
def applyOp (st : GlobalNet) (op : NetOp) : GlobalNet :=
  match op with
  | .bindBackend t =>
      if st.boundHandle = some ⟨t⟩ then st
      else { boundHandle := some ⟨t⟩, sockets := [] }
  | .unbind => { boundHandle := none, sockets := [] }
  | .create d =>
      match st.boundHandle with
      | some h => { st with sockets := (d, h.type) :: st.sockets }
      | none => st
  | .close d =>
      { st with sockets := st.sockets.filter (fun p => decide (p.1 ≠ d)) }

/-- Every outstanding descriptor belongs to the bound handle's backend
kind; with no handle bound, no descriptor is outstanding. -/
def netInvariant (st : GlobalNet) : Prop :=
  match st.boundHandle with
  | none => st.sockets = []
  | some h => ∀ p ∈ st.sockets, p.2 = h.type

/-- Each operation preserves the descriptor-ownership invariant. -/
theorem applyOp_preserves (st : GlobalNet) (op : NetOp)
    (h : netInvariant st) : netInvariant (applyOp st op) := by
  cases op with
  | bindBackend t =>
      by_cases hb : st.boundHandle = some ⟨t⟩
      · simpa [applyOp, hb] using h
      · simp [applyOp, hb, netInvariant]
  | unbind => simp [applyOp, netInvariant]
  | create d =>
      cases hb : st.boundHandle with
      | none => simpa [applyOp, hb] using h
      | some hd =>
          simp only [netInvariant, hb] at h
          simp only [applyOp, hb, netInvariant]
          intro p hp
          rcases List.mem_cons.mp hp with h1 | h2
          · rw [h1]
          · exact h p h2
  | close d =>
      cases hb : st.boundHandle with
      | none =>
          simp only [netInvariant, hb] at h
          simp [applyOp, netInvariant, hb, h]
      | some hd =>
          simp only [netInvariant, hb] at h
          simp only [applyOp, netInvariant, hb]
          intro p hp
          exact h p (List.mem_of_mem_filter hp)

/-- The invariant holds along any run from an invariant state. -/
theorem netInvariant_run (ops : List NetOp) :
    ∀ st : GlobalNet, netInvariant st →
    netInvariant (ops.foldl applyOp st) := by
  induction ops with
  | nil => intro st h; exact h
  | cons op l ih =>
      intro st h
      rw [List.foldl_cons]
      exact ih _ (applyOp_preserves st op h)

/-- C8: the backend kind is a tagged variant with exactly three
alternatives (host socket, CC3000 WiFi, W5500 Ethernet); the singleton
holds at most one bound handle (an `Option`, replaced only whole); each
operation preserves the ownership invariant; and along any operation
sequence from the initial unbound state every outstanding descriptor
belongs to the currently bound handle's backend kind. -/
theorem C8_single_handle_invariant (ops : List NetOp) (st : GlobalNet)
    (op : NetOp) :
    Fintype.card JsNetworkType = 3 ∧
    (netInvariant st → netInvariant (applyOp st op)) ∧
    netInvariant (ops.foldl applyOp { boundHandle := none, sockets := [] }) :=
  ⟨by decide, applyOp_preserves st op,
   netInvariant_run ops _ rfl⟩

/-- Witness for C8: binding CC3000 on the fresh singleton preserves the
invariant, and a run that binds, creates, switches backend and creates
again still satisfies it. -/
theorem C8_single_handle_witness :
    netInvariant
      (applyOp { boundHandle := none, sockets := [] }
        (NetOp.bindBackend .JSNETWORKTYPE_CC3000)) ∧
    netInvariant
      ([NetOp.bindBackend .JSNETWORKTYPE_SOCKET, NetOp.create 0,
        NetOp.bindBackend .JSNETWORKTYPE_W5500, NetOp.create 1].foldl
        applyOp { boundHandle := none, sockets := [] }) :=
  ⟨(C8_single_handle_invariant [] { boundHandle := none, sockets := [] }
      (NetOp.bindBackend .JSNETWORKTYPE_CC3000)).2.1 rfl,
   (C8_single_handle_invariant
      [NetOp.bindBackend .JSNETWORKTYPE_SOCKET, NetOp.create 0,
        NetOp.bindBackend .JSNETWORKTYPE_W5500, NetOp.create 1]
      { boundHandle := none, sockets := [] } NetOp.unbind).2.2⟩
